import Mathlib

/-!
Verification of the option handling and termination bookkeeping of the
COBYQA solver (src/cobyqa/settings.py, src/cobyqa/main.py,
src/cobyqa/models.py).

Modelling conventions:
* Python floats are modelled as rationals, extended with a minus-infinity
  value (`PyF.ninf`) because the default of the `target` option is
  `-np.inf`.  The float literal `1e-6` is modelled by the rational
  `1/1000000`.
* A Python options dictionary is modelled as a partial map from strings
  to `OptVal` (the numeric/boolean values the solver compares and
  converts); `sys.maxsize` is `2^63 - 1`.
* Exceptions are modelled with `Except PyErr`; `PyErr` distinguishes the
  `AttributeError` raised by a missing enum member, the `KeyError` raised
  by a missing dictionary key, and the `ValueError` raised by the option
  validation.
-/

namespace Cobyqa

/-- A Python float extended with minus infinity (the default of the
`target` option is `-np.inf`). -/
inductive PyF where
  | ninf : PyF
  | val : Rat → PyF
deriving DecidableEq

/-- Python `a < b` on extended floats. -/
def PyF.blt : PyF → PyF → Bool
  | PyF.ninf, PyF.ninf => false
  | PyF.ninf, PyF.val _ => true
  | PyF.val _, PyF.ninf => false
  | PyF.val a, PyF.val b => decide (a < b)

/-- Python `a <= b` on extended floats. -/
def PyF.ble : PyF → PyF → Bool
  | PyF.ninf, _ => true
  | PyF.val _, PyF.ninf => false
  | PyF.val a, PyF.val b => decide (a ≤ b)

/-- Python `min(a, b)` (returns the first argument on ties). -/
def PyF.bmin (a b : PyF) : PyF := if PyF.blt b a then b else a

/-- Python `max(a, b)` (returns the first argument on ties). -/
def PyF.bmax (a b : PyF) : PyF := if PyF.blt a b then b else a

/-- A value stored in an options dictionary: a Python bool, int or float
(floats as rationals, plus the minus-infinity float). -/
inductive OptVal where
  | pbool : Bool → OptVal
  | pint : Int → OptVal
  | pfloat : Rat → OptVal
  | pninf : OptVal
deriving DecidableEq

/-- Python `float(v)` of an option value (bools are 0 or 1). -/
def OptVal.toPyF : OptVal → PyF
  | OptVal.pbool b => PyF.val (if b then 1 else 0)
  | OptVal.pint i => PyF.val i
  | OptVal.pfloat q => PyF.val q
  | OptVal.pninf => PyF.ninf

/-- Python `int(v)` of an option value: ints unchanged, bools 0 or 1,
floats truncated toward zero; `int(-inf)` raises in Python, modelled here
as 0 (never reached by the validated paths in this development). -/
def OptVal.toInt : OptVal → Int
  | OptVal.pbool b => if b then 1 else 0
  | OptVal.pint i => i
  | OptVal.pfloat q => if q < 0 then q.ceil else q.floor
  | OptVal.pninf => 0

/-- Python `bool(v)` of an option value (nonzero numbers are true). -/
def OptVal.toBool : OptVal → Bool
  | OptVal.pbool b => b
  | OptVal.pint i => decide (i ≠ 0)
  | OptVal.pfloat q => decide (q ≠ 0)
  | OptVal.pninf => true

/-- An options dictionary: a partial map from option names to values. -/
def OptDict : Type := String → Option OptVal

/-- The empty options dictionary (the caller omitted every key). -/
def emptyOpts : OptDict := fun _ => none

/-- A Python exception: `AttributeError` (missing enum member),
`KeyError` (missing dictionary key) or `ValueError` (failed validation). -/
inductive PyErr where
  | attributeError : String → PyErr
  | keyError : String → PyErr
  | valueError : String → PyErr
deriving DecidableEq

/-- The member table of the `Options` enum (src/cobyqa/settings.py,
lines 20-33): attribute name to option-key string.  The enum defines
DEBUG, HIST_SIZE, MAX_EVAL, MAX_ITER, NPT, RADIUS_INIT, RADIUS_FINAL,
STORE_HIST, TARGET and VERBOSE, and nothing else; in particular there is
no FEASIBILITY_TOL, FILTER_SIZE, STORE_HISTORY or HISTORY_SIZE member,
although src/cobyqa/main.py accesses those attribute names. -/
def optionsAttr : String → Option String
  | "DEBUG" => some "debug"
  | "HIST_SIZE" => some "hist_size"
  | "MAX_EVAL" => some "max_eval"
  | "MAX_ITER" => some "max_iter"
  | "NPT" => some "npt"
  | "RADIUS_INIT" => some "radius_init"
  | "RADIUS_FINAL" => some "radius_final"
  | "STORE_HIST" => some "store_hist"
  | "TARGET" => some "target"
  | "VERBOSE" => some "verbose"
  | _ => none

/-- The non-callable entries of `DEFAULT_OPTIONS`
(src/cobyqa/settings.py, lines 37-48).  The callable entries, applied to
the problem dimension n, are `defaultMaxEval`, `defaultMaxIter` and
`defaultNpt` below.  `sys.maxsize` is `2^63 - 1`; the `target` default is
`-np.inf`.  There is no entry under the keys `feasibility_tol`,
`filter_size`, `store_history` or `history_size`. -/
def defaultOptionsVal : String → Option OptVal
  | "debug" => some (OptVal.pbool false)
  | "radius_init" => some (OptVal.pfloat 1)
  | "radius_final" => some (OptVal.pfloat (1 / 1000000))
  | "store_hist" => some (OptVal.pbool false)
  | "hist_size" => some (OptVal.pint (2 ^ 63 - 1))
  | "target" => some OptVal.pninf
  | "verbose" => some (OptVal.pbool false)
  | _ => none

/-- `DEFAULT_OPTIONS` entry `max_eval`: the function `lambda n: 500 * n`
(src/cobyqa/settings.py, line 39). -/
def defaultMaxEval (n : Nat) : Int := 500 * n

/-- `DEFAULT_OPTIONS` entry `max_iter`: the function `lambda n: 1000 * n`
(src/cobyqa/settings.py, line 40). -/
def defaultMaxIter (n : Nat) : Int := 1000 * n

/-- `DEFAULT_OPTIONS` entry `npt`: the function `lambda n: 2 * n + 1`
(src/cobyqa/settings.py, line 41). -/
def defaultNpt (n : Nat) : Int := 2 * n + 1

/-- Python attribute access `Options.a`: raises `AttributeError` when the
enum has no member named `a`. -/
def lookupAttr (a : String) : Except PyErr String :=
  match optionsAttr a with
  | some k => Except.ok k
  | none => Except.error (PyErr.attributeError a)

/-- Python subscript `DEFAULT_OPTIONS[k]`: raises `KeyError` when the
default table has no entry under `k`. -/
def lookupDefault (k : String) : Except PyErr OptVal :=
  match defaultOptionsVal k with
  | some v => Except.ok v
  | none => Except.error (PyErr.keyError k)

/-- True when the key is present with a value `<= 0` (Python numeric
comparison). -/
def optLe0 : Option OptVal → Bool
  | none => false
  | some v => PyF.ble v.toPyF (PyF.val 0)

/-- True when the key is present with a value `< 0`. -/
def optLt0 : Option OptVal → Bool
  | none => false
  | some v => PyF.blt v.toPyF (PyF.val 0)

/-- True when the key is present with a value `> m`. -/
def optGtInt : Option OptVal → Int → Bool
  | none, _ => false
  | some v, m => PyF.blt (PyF.val m) v.toPyF

/-- The basic options read at the top of `minimize`
(src/cobyqa/main.py, lines 206-221). -/
structure BasicOptions where
  verbose : Bool
  feasibility_tol : PyF
  store_history : Bool
  history_size : Int
  filter_size : Int
  debug : Bool
deriving DecidableEq

/-- Embeds the option-resolution prelude of `minimize`
(src/cobyqa/main.py, lines 206-221), attribute accesses included: each
`Options.NAME` access is resolved through `optionsAttr` (the enum of
src/cobyqa/settings.py) and each `DEFAULT_OPTIONS` subscript through
`lookupDefault`, in the evaluation order of the Python source. -/
def resolveBasicOptions (opts : OptDict) : Except PyErr BasicOptions := do
  let vKey ← lookupAttr "VERBOSE"
  let vDef ← lookupDefault vKey
  let verbose := ((opts vKey).getD vDef).toBool
  let ftKey ← lookupAttr "FEASIBILITY_TOL"
  let ftDef ← lookupDefault ftKey
  let ftol := ((opts ftKey).getD ftDef).toPyF
  let shKey ← lookupAttr "STORE_HISTORY"
  let shDef ← lookupDefault shKey
  let store := ((opts shKey).getD shDef).toBool
  let hsKey ← lookupAttr "HISTORY_SIZE"
  if (opts hsKey).isSome && optLe0 (opts hsKey) then
    throw (PyErr.valueError "The size of the history must be positive.")
  let hsDef ← lookupDefault hsKey
  let hist := ((opts hsKey).getD hsDef).toInt
  let fsKey ← lookupAttr "FILTER_SIZE"
  if (opts fsKey).isSome && optLe0 (opts fsKey) then
    throw (PyErr.valueError "The size of the filter must be positive.")
  let fsDef ← lookupDefault fsKey
  let fsize := ((opts fsKey).getD fsDef).toInt
  let dKey ← lookupAttr "DEBUG"
  let dDef ← lookupDefault dKey
  let debug := ((opts dKey).getD dDef).toBool
  pure ⟨verbose, ftol, store, hist, fsize, debug⟩

/-- The options resolved by the validation-and-defaulting code of
`_set_default_options` (src/cobyqa/main.py, lines 439-468): trust-region
radii as floats, npt, max_eval and max_iter as Python ints. -/
structure CoreOptions where
  radius_init : PyF
  radius_final : PyF
  npt : Int
  max_eval : Int
  max_iter : Int
deriving DecidableEq

/-- The upper bound `((n + 1) * (n + 2)) // 2` on npt
(src/cobyqa/main.py, line 457). -/
def nptUpperBound (n : Nat) : Int := (((n : Int) + 1) * ((n : Int) + 2)) / 2

/-- Embeds the radius branch of `_set_default_options`
(src/cobyqa/main.py, lines 443-454): when both radii are supplied they
must be ordered, when one is supplied the other is derived with
`min`/`max` against its default, and when neither is supplied both
defaults (1.0 and 1e-6) are installed; both values are then converted
with `float`. -/
def radiusResolve : Option OptVal → Option OptVal → Except PyErr (PyF × PyF)
  | some a, some b =>
      if PyF.blt a.toPyF b.toPyF then
        Except.error (PyErr.valueError
          "The initial trust-region radius must be greater than or equal to the final trust-region radius.")
      else
        Except.ok (a.toPyF, b.toPyF)
  | some a, none => Except.ok (a.toPyF, PyF.bmin (PyF.val (1 / 1000000)) a.toPyF)
  | none, some b => Except.ok (PyF.bmax (PyF.val 1) b.toPyF, b.toPyF)
  | none, none => Except.ok (PyF.val 1, PyF.val (1 / 1000000))

/-- Embeds the validation-and-defaulting segment of
`_set_default_options` (src/cobyqa/main.py, lines 439-468): the
`ValueError` checks on supplied radius_init, radius_final, npt, max_eval
and max_iter, in source order, and the resolution of omitted keys to
their defaults, with `npt` defaulting to `2n + 1` and an omitted
`max_eval` to `max(500 n, npt + 1)` (the `(n+1)(n+2)//2` bound message is
abbreviated; the Python message interpolates the bound). -/
def setDefaultOptionsCore (opts : OptDict) (n : Nat) : Except PyErr CoreOptions :=
  if optLe0 (opts "radius_init") then
    Except.error (PyErr.valueError "The initial trust-region radius must be positive.")
  else if optLt0 (opts "radius_final") then
    Except.error (PyErr.valueError "The final trust-region radius must be nonnegative.")
  else
    match radiusResolve (opts "radius_init") (opts "radius_final") with
    | Except.error e => Except.error e
    | Except.ok rr =>
      if optLe0 (opts "npt") then
        Except.error (PyErr.valueError "The number of interpolation points must be positive.")
      else if optGtInt (opts "npt") (nptUpperBound n) then
        Except.error (PyErr.valueError "The number of interpolation points must be at most the limit.")
      else
        let nptVal : Int :=
          match opts "npt" with
          | some v => v.toInt
          | none => defaultNpt n
        if optLe0 (opts "max_eval") then
          Except.error (PyErr.valueError "The maximum number of function evaluations must be positive.")
        else
          let maxEvalVal : Int :=
            match opts "max_eval" with
            | some v => v.toInt
            | none => max (defaultMaxEval n) (nptVal + 1)
          if optLe0 (opts "max_iter") then
            Except.error (PyErr.valueError "The maximum number of iterations must be positive.")
          else
            let maxIterVal : Int :=
              match opts "max_iter" with
              | some v => v.toInt
              | none => defaultMaxIter n
            Except.ok ⟨rr.1, rr.2, nptVal, maxEvalVal, maxIterVal⟩

/-- Embeds the configuration validation seen by a `minimize` caller: the
history_size and filter_size positivity checks (src/cobyqa/main.py,
lines 212-217) followed by `_set_default_options` (lines 439-468).
Option keys here use the single consistent naming that the control code
of main.py expects (history_size, filter_size); the enum-name drift of
settings.py, which in the shipped code raises before these checks run,
is treated separately by `resolveBasicOptions`. -/
def validateOptions (opts : OptDict) (n : Nat) : Except PyErr CoreOptions :=
  if optLe0 (opts "history_size") then
    Except.error (PyErr.valueError "The size of the history must be positive.")
  else if optLe0 (opts "filter_size") then
    Except.error (PyErr.valueError "The size of the filter must be positive.")
  else setDefaultOptionsCore opts n

/-- Whether a computation raised. -/
def isErr {ε α : Type} : Except ε α → Bool
  | Except.error _ => true
  | Except.ok _ => false

/-- The ordering rule on the radii is violated: both radii supplied and
radius_init < radius_final. -/
def radiusOrderViolated (ri rfo : Option OptVal) : Bool :=
  match ri, rfo with
  | some a, some b => PyF.blt a.toPyF b.toPyF
  | _, _ => false

/-- The amended validation rule of claim C3, written from the claim text:
a supplied option violates radius_init > 0, radius_final >= 0,
radius_init >= radius_final (both supplied), 0 < npt <= (n+1)(n+2)/2,
max_eval > 0, max_iter > 0, history_size > 0 or filter_size > 0.  The
rule max_eval > npt of the original claim is absent: the code never
validates a supplied max_eval against npt. -/
def violatesValidation (opts : OptDict) (n : Nat) : Bool :=
  optLe0 (opts "history_size") || optLe0 (opts "filter_size") ||
  optLe0 (opts "radius_init") || optLt0 (opts "radius_final") ||
  radiusOrderViolated (opts "radius_init") (opts "radius_final") ||
  optLe0 (opts "npt") || optGtInt (opts "npt") (nptUpperBound n) ||
  optLe0 (opts "max_eval") || optLe0 (opts "max_iter")

/-- The options dictionary supplying only `max_eval = 1`. -/
def c3BadOpts : OptDict :=
  fun k => if k = "max_eval" then some (OptVal.pint 1) else none

/-- The resolved options produced from `c3BadOpts` with n = 1: default
radii, default npt = 3, the supplied max_eval = 1, default
max_iter = 1000. -/
def c3BadRes : CoreOptions :=
  ⟨PyF.val 1, PyF.val (1 / 1000000), 3, 1, 1000⟩

/-- The exit statuses (src/cobyqa/settings.py, lines 8-17). -/
inductive ExitStatus where
  | RADIUS_SUCCESS : ExitStatus
  | TARGET_SUCCESS : ExitStatus
  | FIXED_SUCCESS : ExitStatus
  | MAX_EVAL_WARNING : ExitStatus
  | MAX_ITER_WARNING : ExitStatus
  | INFEASIBLE_ERROR : ExitStatus
deriving DecidableEq

/-- The integer value of each exit status (src/cobyqa/settings.py,
lines 12-17), reported as `result.status` by `_build_result`
(src/cobyqa/main.py, line 517). -/
def ExitStatus.toVal : ExitStatus → Int
  | ExitStatus.RADIUS_SUCCESS => 0
  | ExitStatus.TARGET_SUCCESS => 1
  | ExitStatus.FIXED_SUCCESS => 2
  | ExitStatus.MAX_EVAL_WARNING => 3
  | ExitStatus.MAX_ITER_WARNING => 4
  | ExitStatus.INFEASIBLE_ERROR => -1

/-- Python `x < target` for a float `x` against the extended-float
target (src/cobyqa/models.py, line 495). -/
def ratLtPyF (x : Rat) : PyF → Bool
  | PyF.ninf => false
  | PyF.val q => decide (x < q)

/-- Modelled from the spec: the `Problem` adapter of problem.py is not
among the sources; per the spec it wraps the user callables, evaluates
them at a point, computes the maximum constraint violation, tracks the
number of evaluations, and returns the best stored evaluation through an
external filter.  The fields record exactly what the code embedded here
reads from it: the feasibility of the bound constraints, the number of
free variables after fixed-variable elimination, the objective value and
maximum constraint violation at the k-th interpolation point, the
objective value of the best stored evaluation, and the outcome of the
maxcv tolerance test applied to the returned point by `_build_result`
(src/cobyqa/main.py, line 516), a floating-point test abstracted as a
boolean. -/
structure ProbModel where
  boundsFeasible : Bool
  nVars : Nat
  evalAt : Nat → Rat × Rat
  bestFun : Rat
  maxcvOk : Bool

/-- The evaluation loop of `Models.__init__` (src/cobyqa/models.py,
lines 484-498): iterate k over `range(min(npt, max_eval))`, stopping
early when interpolation point k has objective value below the target
and maximum constraint violation at most the feasibility tolerance
(lines 495-498; the shipped line 496 reads the feasibility tolerance
through the missing enum member treated by `resolveBasicOptions`; here
the tolerance is passed directly).  The first component of the result is
the index after the last evaluated point, the second whether the target
test fired. -/
def modelsScanAux (oracle : Nat → Rat × Rat) (target : PyF) (ftol : Rat) :
    Nat → Nat → Nat × Bool
  | k, 0 => (k, false)
  | k, fuel + 1 =>
      let fv := (oracle k).1
      let cv := (oracle k).2
      if ratLtPyF fv target && decide (cv ≤ ftol) then (k + 1, true)
      else modelsScanAux oracle target ftol (k + 1) fuel

/-- The number of user-function evaluations and the `target_init` flag
produced by `Models.__init__` (src/cobyqa/models.py, lines 477-498):
point 0 is evaluated before the loop (line 479), so at least one
evaluation always occurs; otherwise the count is the number of loop
indices visited. -/
def modelsInitEval (npt max_eval : Nat) (target : PyF) (ftol : Rat)
    (oracle : Nat → Rat × Rat) : Nat × Bool :=
  let r := modelsScanAux oracle target ftol 0 (min npt max_eval)
  (max r.1 1, r.2)

/-- The result fields of `_build_result` that the claims mention
(src/cobyqa/main.py, lines 503-534): status value, success flag, number
of function evaluations, number of iterations, and the objective value
of the best stored evaluation selected through the filter. -/
structure MinResult where
  status : Int
  success : Bool
  nfev : Nat
  nit : Nat
  bestFun : Rat
deriving DecidableEq

/-- Embeds `_build_result` (src/cobyqa/main.py, lines 503-534) on the
fields of `MinResult`: the returned point is the best stored evaluation
`pb.best_eval(penalty)`, and unless the status is TARGET_SUCCESS the
success flag is additionally conjoined with the maxcv tolerance test
(line 516). -/
def buildResult (pb : ProbModel) (success : Bool) (status : ExitStatus)
    (n_iter n_eval : Nat) : MinResult :=
  let s := if status = ExitStatus.TARGET_SUCCESS then success
           else success && pb.maxcvOk
  ⟨status.toVal, s, n_eval, n_iter, pb.bestFun⟩

/-- Outcome of the part of `minimize` before the main loop: either a
result was returned, or the main loop is entered with the recorded
number of evaluations already spent. -/
inductive PreLoopOutcome where
  | finished : MinResult → PreLoopOutcome
  | enterLoop : Nat → PreLoopOutcome
deriving DecidableEq

/-- Embeds `minimize` from model initialization to the main loop
(src/cobyqa/main.py, lines 260-280): infeasible bounds return
INFEASIBLE_ERROR with zero evaluations, a problem with every variable
fixed returns FIXED_SUCCESS, then the models are built
(`TrustRegion(pb, options)` constructs `Models`, whose evaluation count
and target flag are `modelsInitEval`); a fired target test returns
TARGET_SUCCESS, and an exhausted evaluation budget
(`pb.n_eval >= options[Options.MAX_EVAL]`, line 278) returns a result
whose status is `ExitStatus.MAX_ITER_WARNING` (line 280), although the
comment on line 279 describes the maximum number of function
evaluations as exceeded. -/
def minimizePreLoop (pb : ProbModel) (co : CoreOptions) (target : PyF)
    (ftol : Rat) : PreLoopOutcome :=
  if pb.boundsFeasible = false then
    PreLoopOutcome.finished
      (buildResult pb false ExitStatus.INFEASIBLE_ERROR 0 0)
  else if pb.nVars = 0 then
    PreLoopOutcome.finished
      (buildResult pb true ExitStatus.FIXED_SUCCESS 0 0)
  else
    let init := modelsInitEval co.npt.toNat co.max_eval.toNat target ftol pb.evalAt
    if init.2 then
      PreLoopOutcome.finished
        (buildResult pb true ExitStatus.TARGET_SUCCESS 0 init.1)
    else if co.max_eval ≤ (init.1 : Int) then
      PreLoopOutcome.finished
        (buildResult pb false ExitStatus.MAX_ITER_WARNING 0 init.1)
    else
      PreLoopOutcome.enterLoop init.1

/-- Embeds `_eval` (src/cobyqa/main.py, lines 490-500) up to its budget
guard: the call raises `MaxEvalError` exactly when the number of
evaluations already spent has reached the budget (line 494); the three
`except MaxEvalError` handlers of the main loop (lines 338-340, 355-357
and 422-424) all set the status to `ExitStatus.MAX_EVAL_WARNING` and
break, after which the loop epilogue builds the result from the best
stored evaluation. -/
def evalRaisesMaxEval (n_eval : Nat) (max_eval : Int) : Bool :=
  decide (max_eval ≤ (n_eval : Int))

/-- The status installed by the `except MaxEvalError` handlers of the
main loop (src/cobyqa/main.py, lines 338-340, 355-357, 422-424). -/
def loopMaxEvalStatus : ExitStatus := ExitStatus.MAX_EVAL_WARNING

/-- The options dictionary of the C2 scenario: only `max_eval = 3` is
supplied. -/
def c2Opts : OptDict :=
  fun k => if k = "max_eval" then some (OptVal.pint 3) else none

/-- The resolved options of the C2 scenario with n = 1: default radii,
default npt = 3, the supplied max_eval = 3, default max_iter = 1000. -/
def c2Co : CoreOptions :=
  ⟨PyF.val 1, PyF.val (1 / 1000000), 3, 3, 1000⟩

/-- The problem of the C2 scenario: one free variable, feasible bounds,
every evaluation returning objective value 0 with zero constraint
violation, best stored objective value 0, maxcv test passing. -/
def c2Prob : ProbModel :=
  ⟨true, 1, fun _ => (0, 0), 0, true⟩

/-- Claim C1: the accepted options were claimed to include
feasibility_tol, filter_size, store_history and history_size, with option
resolution succeeding on omitted keys and the run proceeding with the
documented defaults.  On the code this fails on every call: line 208 of
src/cobyqa/main.py evaluates `Options.FEASIBILITY_TOL`, but the `Options`
enum of src/cobyqa/settings.py has no such member (it has STORE_HIST and
HIST_SIZE in place of STORE_HISTORY and HISTORY_SIZE, and no
FEASIBILITY_TOL or FILTER_SIZE at all), so the prelude raises
`AttributeError` for every options dictionary, the empty one included,
and resolution never succeeds. -/
theorem c1_resolution_always_raises (opts : OptDict) :
    resolveBasicOptions opts =
      Except.error (PyErr.attributeError "FEASIBILITY_TOL") := rfl

/-- Raising of `radiusResolve` coincides with the violated ordering rule. -/
theorem isErr_radiusResolve (ri rfo : Option OptVal) :
    isErr (radiusResolve ri rfo) = radiusOrderViolated ri rfo := by
  cases ri with
  | none => cases rfo <;> rfl
  | some a =>
    cases rfo with
    | none => rfl
    | some b =>
      cases hc : PyF.blt a.toPyF b.toPyF <;>
        simp [radiusResolve, radiusOrderViolated, isErr, hc]

/-- Claim C3 counterexample: the claim asserts that every configuration
accepted without a configuration error has max_eval > npt, including a
caller-supplied max_eval.  With n = 1 the dictionary supplying only
max_eval = 1 is accepted (no ValueError is raised), yet the resolved
max_eval = 1 is below the resolved default npt = 3. -/
theorem c3_counterexample :
    validateOptions c3BadOpts 1 = Except.ok c3BadRes ∧
      ¬ c3BadRes.npt < c3BadRes.max_eval := ⟨rfl, by decide⟩

/-- Claim C3 (amended): the validation raises a configuration error
exactly when a supplied option violates radius_init > 0,
radius_final >= 0, radius_init >= radius_final (when both are supplied),
0 < npt <= (n+1)(n+2)/2, max_eval > 0, max_iter > 0, history_size > 0 or
filter_size > 0; the rule max_eval > npt holds only for a defaulted
max_eval: when the caller omits max_eval, every accepted configuration
resolves it to max(500 n, npt + 1) > npt. -/
theorem c3_validation_iff (opts : OptDict) (n : Nat) :
    isErr (validateOptions opts n) = violatesValidation opts n ∧
      (opts "max_eval" = none →
        ∀ co : CoreOptions, validateOptions opts n = Except.ok co →
          co.npt < co.max_eval) := by
  constructor
  · unfold validateOptions setDefaultOptionsCore violatesValidation
    cases hH : optLe0 (opts "history_size") <;>
      cases hFs : optLe0 (opts "filter_size") <;>
        cases hA : optLe0 (opts "radius_init") <;>
          cases hB : optLt0 (opts "radius_final") <;>
            simp [hH, hFs, hA, hB, isErr]
    cases hrr : radiusResolve (opts "radius_init") (opts "radius_final") with
    | error e =>
        have := isErr_radiusResolve (opts "radius_init") (opts "radius_final")
        rw [hrr] at this
        simp only [isErr] at this
        simp [← this, isErr]
    | ok rr =>
        have := isErr_radiusResolve (opts "radius_init") (opts "radius_final")
        rw [hrr] at this
        simp only [isErr] at this
        cases hD : optLe0 (opts "npt") <;>
          cases hE : optGtInt (opts "npt") (nptUpperBound n) <;>
            cases hF : optLe0 (opts "max_eval") <;>
              cases hG : optLe0 (opts "max_iter") <;>
                simp [hD, hE, hF, hG, ← this, isErr]
  · intro hME co hok
    unfold validateOptions setDefaultOptionsCore at hok
    rw [hME] at hok
    split at hok
    · exact absurd hok (by simp)
    · split at hok
      · exact absurd hok (by simp)
      · split at hok
        · exact absurd hok (by simp)
        · split at hok
          · exact absurd hok (by simp)
          · split at hok
            · exact absurd hok (by simp)
            · simp only [optLe0] at hok
              split at hok
              · exact absurd hok (by simp)
              · rw [if_neg Bool.false_ne_true] at hok
                split at hok
                · exact absurd hok (by simp)
                · split at hok
                  · exact absurd hok (by simp)
                  · rw [Except.ok.injEq] at hok
                    subst hok
                    exact lt_of_lt_of_le (lt_add_one _) (le_max_right _ _)

/-- Witness for C3: at the empty dictionary with n = 1, no rule is
violated, validation succeeds, and the defaulted
max_eval = max(500, 4) = 500 exceeds the defaulted npt = 3. -/
theorem c3_validation_iff_witness :
    isErr (validateOptions emptyOpts 1) = violatesValidation emptyOpts 1 ∧
      CoreOptions.npt ⟨PyF.val 1, PyF.val (1 / 1000000), 3, 500, 1000⟩ <
        CoreOptions.max_eval ⟨PyF.val 1, PyF.val (1 / 1000000), 3, 500, 1000⟩ :=
  ⟨(c3_validation_iff emptyOpts 1).1,
    (c3_validation_iff emptyOpts 1).2 rfl
      ⟨PyF.val 1, PyF.val (1 / 1000000), 3, 500, 1000⟩ rfl⟩

/-- Claim C2: when the number of user-function evaluations reaches
max_eval, the claim says `minimize` exits with status MAX_EVAL_WARNING,
in particular when the budget is already exhausted by the initial
interpolation evaluations (max_eval <= npt).  On the code that last case
diverges: with n = 1, npt defaulted to 3 and max_eval = 3 supplied (a
configuration the validation accepts), the three initial interpolation
evaluations consume the whole budget, the target test never fires, and
the pre-loop budget check of src/cobyqa/main.py, lines 278-280 — whose
comment says the maximum number of function evaluations has been
exceeded — returns a result with status 4, the value of
`ExitStatus.MAX_ITER_WARNING`, instead of 3, the value of
`ExitStatus.MAX_EVAL_WARNING` named by the claim and installed by the
in-loop `except MaxEvalError` handlers.  The rest of the claim holds:
the result is still built from the best stored evaluation (here with
objective value 0, nfev = 3 and nit = 0). -/
theorem c2_init_budget_wrong_status :
    validateOptions c2Opts 1 = Except.ok c2Co ∧
      minimizePreLoop c2Prob c2Co PyF.ninf 0 =
        PreLoopOutcome.finished ⟨4, false, 3, 0, c2Prob.bestFun⟩ ∧
      ExitStatus.MAX_ITER_WARNING.toVal = 4 ∧
      ExitStatus.MAX_EVAL_WARNING.toVal = 3 :=
  ⟨rfl, rfl, rfl, rfl⟩

end Cobyqa
